import Mathlib

/-!
Verification of the cw1-backend lesson/order server.

The server (src/index.js and the second Express app, src/unnamed/part_000)
stores two MongoDB collections, Lessons and Orders, and exposes:

* `PUT /Kitten/Lessons/:id` (index.js, first app): bulk availability update.
  It reads `lessons` from the body; each entry must have a JS-truthy `id`
  and `quantity`, and for each entry it runs
  `updateOne({_id: id}, {$inc: {availableSlots: -quantity}})`; a missing id
  is only logged, and the endpoint answers 200.
* `POST /Kitten/Orders` (part_000): validates that `name`, `phone` are
  truthy and `items` is a non-empty array, then inserts one order document
  per item with `quantity: 1` and the client-supplied `total` and `date`.
  It never touches the Lessons collection.
* `POST /Kitten/Lessons` (part_000): `validateLesson` (truthy subject,
  truthy location, numeric price) then inserts the body verbatim.
* `PUT /Kitten/Lessons/:id` (part_000): `validateLesson` then
  `updateOne({_id: id}, {$set: body})`; 404 when no document matches.
* `DELETE /Kitten/Lessons/:id` (part_000): `deleteOne`; 404 when nothing
  was deleted.

Documents are schemaless, so every lesson field is modelled as an
`Option`; MongoDB `$inc` on an absent field creates it (we model the
absent value as 0 before incrementing, matching `$inc` semantics where the
field is created with the increment's value).  ObjectIds are modelled as
naturals and every model id is taken to be well-formed (the
`ObjectId.isValid` 400 guard for malformed id strings is outside the
model).  JS truthiness: an absent or empty string is falsy; an absent or
zero number is falsy.
-/

namespace CW1

/-- A lesson document; every field may be absent (schemaless store). -/
structure LessonDoc where
  subject : Option String := none
  location : Option String := none
  price : Option Int := none
  capacity : Option Int := none
  availableSlots : Option Int := none
  deriving Repr, DecidableEq

/-- One item of a checkout request body (`items` array element). -/
structure OrderItem where
  lessonId : Option Nat := none
  quantity : Option Int := none
  deriving Repr, DecidableEq

/-- An order document as persisted by `POST /Kitten/Orders`. -/
structure OrderDoc where
  lessonId : Option Nat
  customerName : String
  quantity : Int
  total : Option Int
  date : Option String
  deriving Repr, DecidableEq

/-- The checkout request body `{name, phone, items, total, date}`. -/
structure OrderRequest where
  name : Option String := none
  phone : Option String := none
  items : Option (List OrderItem) := none
  total : Option Int := none
  date : Option String := none
  deriving Repr, DecidableEq

/-- One entry of the bulk availability-update body (`lessons` array). -/
structure BulkEntry where
  id : Option Nat := none
  quantity : Option Int := none
  deriving Repr, DecidableEq

/-- Server state: the Lessons collection (keyed by id) and the Orders
collection, in insertion order. -/
structure ServerState where
  lessons : List (Nat × LessonDoc)
  orders : List OrderDoc
  deriving Repr, DecidableEq

/-- JS truthiness of an optional string: absent and `""` are falsy. -/
def truthyStr : Option String → Bool
  | none => false
  | some s => !(s == "")

/-- JS truthiness of an optional number: absent and `0` are falsy. -/
def truthyNum : Option Int → Bool
  | none => false
  | some n => !(n == 0)

/-- `validateLesson` (part_000 lines 78-83): requires truthy `subject`,
truthy `location` and a numeric `price`; returns the error message or
null. -/
def validateLesson (l : LessonDoc) : Option String :=
  if !truthyStr l.subject || !truthyStr l.location || l.price.isNone then
    some "Lesson must include subject, location, and numeric price."
  else none

/-- `findOne({_id: i})` on the Lessons collection. -/
def findLesson : List (Nat × LessonDoc) → Nat → Option LessonDoc
  | [], _ => none
  | p :: rest, i => if p.1 = i then some p.2 else findLesson rest i

/-- `updateOne({_id: i}, {$inc: {availableSlots: q}})`: adds `q` to the
`availableSlots` of the first document with id `i`; `$inc` on an absent
field creates it (absent reads as 0). -/
def incAvailable : List (Nat × LessonDoc) → Nat → Int → List (Nat × LessonDoc)
  | [], _, _ => []
  | p :: rest, i, q =>
    if p.1 = i then
      (p.1, { p.2 with availableSlots := some (p.2.availableSlots.getD 0 + q) }) :: rest
    else
      p :: incAvailable rest i q

/-- The `for (const lesson of lessons)` loop of the bulk update endpoint
(index.js lines 127-140): an entry with a falsy `id` or `quantity` aborts
with 400 (keeping the updates already applied); otherwise the entry's
lesson is decremented by `quantity` and a missing id is only logged.
Returns the HTTP status and the resulting collection. -/
def updateAvailabilityLoop : List (Nat × LessonDoc) → List BulkEntry → Nat × List (Nat × LessonDoc)
  | lessons, [] => (200, lessons)
  | lessons, e :: rest =>
    if !e.id.isSome || !truthyNum e.quantity then
      (400, lessons)
    else
      updateAvailabilityLoop (incAvailable lessons (e.id.getD 0) (-(e.quantity.getD 0))) rest

/-- `PUT /Kitten/Lessons/:id` of index.js (lines 117-147), the bulk
availability update: 400 when the body has no `lessons` array, otherwise
the per-entry loop.  The `:id` path parameter is ignored by the handler. -/
def putLessonsBulk (st : ServerState) (body : Option (List BulkEntry)) : Nat × ServerState :=
  match body with
  | none => (400, st)
  | some entries =>
    let r := updateAvailabilityLoop st.lessons entries
    (r.1, { st with lessons := r.2 })

/-- `POST /Kitten/Orders` (part_000 lines 93-120): 400 when `name` or
`phone` is falsy or `items` is absent or empty; otherwise one order
document per item is inserted, with `quantity` hard-coded to 1 and
`total`/`date` copied from the request body.  The Lessons collection is
never touched. -/
def postOrders (st : ServerState) (req : OrderRequest) : Nat × ServerState :=
  if !truthyStr req.name || !truthyStr req.phone || req.items.isNone
      || (req.items.getD []).isEmpty then
    (400, st)
  else
    let docs := (req.items.getD []).map (fun item =>
      { lessonId := item.lessonId
        customerName := req.name.getD ""
        quantity := 1
        total := req.total
        date := req.date : OrderDoc })
    (201, { st with orders := st.orders ++ docs })

/-- `POST /Kitten/Lessons` (part_000 lines 155-171): `validateLesson`,
then `insertOne(req.body)` — the body is inserted verbatim, with the id
generated by the store. -/
def postLessons (st : ServerState) (newId : Nat) (body : LessonDoc) : Nat × ServerState :=
  match validateLesson body with
  | some _ => (400, st)
  | none => (201, { st with lessons := st.lessons ++ [(newId, body)] })

/-- MongoDB `$set` with the request body: every field present in the body
overwrites the document's field; absent fields are kept. -/
def setFields (doc body : LessonDoc) : LessonDoc :=
  { subject := body.subject.orElse fun _ => doc.subject
    location := body.location.orElse fun _ => doc.location
    price := body.price.orElse fun _ => doc.price
    capacity := body.capacity.orElse fun _ => doc.capacity
    availableSlots := body.availableSlots.orElse fun _ => doc.availableSlots }

/-- `updateOne({_id: i}, {$set: body})`: applies `setFields` to the first
document with id `i`. -/
def setLesson : List (Nat × LessonDoc) → Nat → LessonDoc → List (Nat × LessonDoc)
  | [], _, _ => []
  | p :: rest, i, body =>
    if p.1 = i then (p.1, setFields p.2 body) :: rest
    else p :: setLesson rest i body

/-- `PUT /Kitten/Lessons/:id` of part_000 (lines 174-197), the per-lesson
update: `validateLesson` then `$set` of the whole body; 404 when no
document matches the id. -/
def putLessonById (st : ServerState) (i : Nat) (body : LessonDoc) : Nat × ServerState :=
  match validateLesson body with
  | some _ => (400, st)
  | none =>
    match findLesson st.lessons i with
    | none => (404, st)
    | some _ => (200, { st with lessons := setLesson st.lessons i body })

/-- `deleteOne({_id: i})`: removes the first document with id `i`. -/
def removeLesson : List (Nat × LessonDoc) → Nat → List (Nat × LessonDoc)
  | [], _ => []
  | p :: rest, i => if p.1 = i then rest else p :: removeLesson rest i

/-- `DELETE /Kitten/Lessons/:id` (part_000 lines 200-216): 404 when no
document matches, otherwise the document is removed. -/
def deleteLessonOp (st : ServerState) (i : Nat) : Nat × ServerState :=
  match findLesson st.lessons i with
  | none => (404, st)
  | some _ => (200, { st with lessons := removeLesson st.lessons i })

/-- Modelled from the spec (refinement comparison only; the source has no
such check): a line's `tryReserve(lessonId, quantity)` fails when the
lesson is absent (`NotFound`) or `availableSlots < quantity`
(`InsufficientCapacity`). -/
def specReserveFails (lessons : List (Nat × LessonDoc)) (lessonId : Nat) (quantity : Int) : Bool :=
  match findLesson lessons lessonId with
  | none => true
  | some doc => doc.availableSlots.getD 0 < quantity

/-- Runs a list of checkout requests one after the other (one legal
schedule of N concurrent checkouts), collecting the HTTP statuses. -/
def runCheckouts : ServerState → List OrderRequest → List Nat × ServerState
  | st, [] => ([], st)
  | st, r :: rest =>
    let p := postOrders st r
    let q := runCheckouts p.2 rest
    (p.1 :: q.1, q.2)

/-! ### Helper lemmas -/

theorem findLesson_incAvailable (l : List (Nat × LessonDoc)) (i : Nat) (q : Int) :
    findLesson (incAvailable l i q) i =
      (findLesson l i).map
        (fun d => { d with availableSlots := some (d.availableSlots.getD 0 + q) }) := by
  induction l with
  | nil => rfl
  | cons p rest ih =>
    by_cases hp : p.1 = i
    · simp [incAvailable, findLesson, hp]
    · simp [incAvailable, findLesson, hp, ih]

theorem postOrders_lessons (st : ServerState) (req : OrderRequest) :
    (postOrders st req).2.lessons = st.lessons := by
  unfold postOrders
  split
  · rfl
  · rfl

theorem postOrders_success (st : ServerState) (req : OrderRequest)
    (items : List OrderItem)
    (hn : truthyStr req.name = true) (hp : truthyStr req.phone = true)
    (hi : req.items = some items) (hne : items ≠ []) :
    postOrders st req =
      (201, { st with orders := st.orders ++ items.map (fun item =>
        { lessonId := item.lessonId
          customerName := req.name.getD ""
          quantity := 1
          total := req.total
          date := req.date : OrderDoc }) }) := by
  unfold postOrders
  rw [hi]
  simp [hn, hp, hne]

theorem putLessonsBulk_single (st : ServerState) (i : Nat) (q : Int) (hq : q ≠ 0) :
    putLessonsBulk st (some [⟨some i, some q⟩]) =
      (200, { st with lessons := incAvailable st.lessons i (-q) }) := by
  have hq2 : truthyNum (some q) = true := by
    simp [truthyNum, hq]
  unfold putLessonsBulk
  simp [updateAvailabilityLoop, hq2]

/-- C1: the claim states that the bulk availability endpoint decrements a
lesson's `availableSlots` by `quantity` only when `availableSlots ≥
quantity`, and otherwise fails with `InsufficientCapacity` leaving the
slots unchanged.  Counterexample: a lesson with `availableSlots = 1` and a
request for quantity 2 — the endpoint answers 200 (no failure) and the
slots become -1 (decremented although `availableSlots < quantity`). -/
theorem c1_counterexample :
    (putLessonsBulk
        ⟨[(1, ⟨some "Math", some "Room 1", some 20, some 2, some 1⟩)], []⟩
        (some [⟨some 1, some 2⟩])).1 = 200 ∧
    (findLesson
        (putLessonsBulk
          ⟨[(1, ⟨some "Math", some "Room 1", some 20, some 2, some 1⟩)], []⟩
          (some [⟨some 1, some 2⟩])).2.lessons 1).map LessonDoc.availableSlots
      = some (some (-1)) ∧
    ¬ ((1 : Int) ≥ 2) := by
  refine ⟨rfl, rfl, by decide⟩

/-- C1 (amended): for every stored lesson and every truthy quantity `q`,
the bulk availability endpoint answers 200 and unconditionally decrements
the lesson's `availableSlots` by `q` — it performs no capacity check and
never fails with `InsufficientCapacity`, even when `availableSlots < q`. -/
theorem c1_amended (st : ServerState) (i : Nat) (q : Int) (doc : LessonDoc)
    (hq : q ≠ 0) (h : findLesson st.lessons i = some doc) :
    (putLessonsBulk st (some [⟨some i, some q⟩])).1 = 200 ∧
    findLesson (putLessonsBulk st (some [⟨some i, some q⟩])).2.lessons i =
      some { doc with availableSlots := some (doc.availableSlots.getD 0 - q) } := by
  rw [putLessonsBulk_single st i q hq]
  refine ⟨rfl, ?_⟩
  show findLesson (incAvailable st.lessons i (-q)) i = _
  rw [findLesson_incAvailable, h]
  simp [sub_eq_add_neg]

/-- Witness for `c1_amended` at a concrete state: lesson 1 holds 1 slot,
the bulk request decrements by 2, and the result is 200 with -1 slots. -/
theorem c1_amended_witness :
    (putLessonsBulk
        ⟨[(1, ⟨some "Math", some "Room 1", some 20, some 2, some 1⟩)], []⟩
        (some [⟨some 1, some 2⟩])).1 = 200 ∧
    findLesson
        (putLessonsBulk
          ⟨[(1, ⟨some "Math", some "Room 1", some 20, some 2, some 1⟩)], []⟩
          (some [⟨some 1, some 2⟩])).2.lessons 1
      = some ⟨some "Math", some "Room 1", some 20, some 2, some (1 - 2)⟩ :=
  c1_amended ⟨[(1, ⟨some "Math", some "Room 1", some 20, some 2, some 1⟩)], []⟩
    1 2 ⟨some "Math", some "Room 1", some 20, some 2, some 1⟩ (by decide) rfl

/-- C2: the claim states that `0 ≤ availableSlots ≤ capacity` holds after
every sequence of operations.  Counterexample (a concrete sequence from
the empty store): `POST /Kitten/Lessons` with capacity 2 (creation inserts
the body verbatim and sets no `availableSlots`), then the bulk endpoint
decrements by 3 — `$inc` creates the field at -3, violating
`0 ≤ availableSlots`. -/
theorem c2_counterexample :
    (findLesson
        (putLessonsBulk
          (postLessons ⟨[], []⟩ 1 ⟨some "Math", some "Room 1", some 20, some 2, none⟩).2
          (some [⟨some 1, some 3⟩])).2.lessons 1).map LessonDoc.availableSlots
      = some (some (-3)) ∧ ¬ ((0 : Int) ≤ -3) :=
  ⟨rfl, by decide⟩

/-- C2 (amended): the invariant is not maintained by the code — whenever a
stored lesson has `availableSlots = a` with `0 ≤ a` and the bulk endpoint
is called with a quantity `q > a`, the resulting state stores
`availableSlots = a - q < 0`.  No operation clamps or rejects the
decrement. -/
theorem c2_amended (st : ServerState) (i : Nat) (doc : LessonDoc) (a q : Int)
    (h : findLesson st.lessons i = some doc) (ha : doc.availableSlots = some a)
    (h0 : 0 ≤ a) (hq : a < q) :
    ∃ d : LessonDoc,
      findLesson (putLessonsBulk st (some [⟨some i, some q⟩])).2.lessons i = some d ∧
      d.availableSlots = some (a - q) ∧ a - q < 0 := by
  have hq0 : q ≠ 0 := by omega
  have hfind : findLesson (putLessonsBulk st (some [⟨some i, some q⟩])).2.lessons i =
      some { doc with availableSlots := some (doc.availableSlots.getD 0 + (-q)) } := by
    rw [putLessonsBulk_single st i q hq0]
    show findLesson (incAvailable st.lessons i (-q)) i = _
    rw [findLesson_incAvailable, h]
    rfl
  refine ⟨_, hfind, ?_, by omega⟩
  simp [ha, sub_eq_add_neg]

/-- Witness for `c2_amended`: lesson 1 holds 1 slot with capacity 2; a
bulk decrement by 2 leaves -1 slots. -/
theorem c2_amended_witness :
    ∃ d : LessonDoc,
      findLesson
          (putLessonsBulk ⟨[(1, ⟨some "Math", some "Room 1", some 20, some 2, some 1⟩)], []⟩
            (some [⟨some 1, some 2⟩])).2.lessons 1 = some d ∧
      d.availableSlots = some ((1 : Int) - 2) ∧ (1 : Int) - 2 < 0 :=
  c2_amended ⟨[(1, ⟨some "Math", some "Room 1", some 20, some 2, some 1⟩)], []⟩
    1 ⟨some "Math", some "Room 1", some 20, some 2, some 1⟩ 1 2 rfl rfl (by decide) (by decide)

/-- C3: the claim states that a multi-line checkout whose later line's
reservation fails releases the earlier lines' seats and persists no Order
record.  Counterexample: lesson 1 has 2 slots and lesson 2 has 0; in a
two-line checkout for one seat each, line 2's reservation fails in the
spec's sense (`availableSlots = 0 < 1`), yet the endpoint answers 201 and
persists both order documents — no reservation is attempted, nothing is
rolled back, and the Order records are stored. -/
theorem c3_counterexample :
    specReserveFails
        [(1, ⟨some "Math", some "Room 1", some 20, some 2, some 2⟩),
         (2, ⟨some "Sci", some "Room 2", some 30, some 2, some 0⟩)] 2 1 = true ∧
    (postOrders
        ⟨[(1, ⟨some "Math", some "Room 1", some 20, some 2, some 2⟩),
          (2, ⟨some "Sci", some "Room 2", some 30, some 2, some 0⟩)], []⟩
        ⟨some "Ann", some "123", some [⟨some 1, some 1⟩, ⟨some 2, some 1⟩],
          some 50, some "2024-01-01"⟩).1 = 201 ∧
    (postOrders
        ⟨[(1, ⟨some "Math", some "Room 1", some 20, some 2, some 2⟩),
          (2, ⟨some "Sci", some "Room 2", some 30, some 2, some 0⟩)], []⟩
        ⟨some "Ann", some "123", some [⟨some 1, some 1⟩, ⟨some 2, some 1⟩],
          some 50, some "2024-01-01"⟩).2.orders ≠ [] := by
  decide

/-- C3 (amended): the checkout endpoint performs no reservation at all.
For every state and every well-formed request (truthy name and phone,
non-empty items) — including ones where a line would fail the spec's
`tryReserve` — it leaves every lesson's `availableSlots` untouched (so
earlier lines' lessons are trivially unchanged), answers 201, and persists
one order document per item. -/
theorem c3_amended (st : ServerState) (req : OrderRequest) (items : List OrderItem)
    (hn : truthyStr req.name = true) (hp : truthyStr req.phone = true)
    (hi : req.items = some items) (hne : items ≠ []) :
    (postOrders st req).2.lessons = st.lessons ∧
    (postOrders st req).1 = 201 ∧
    (postOrders st req).2.orders = st.orders ++ items.map (fun item =>
      ⟨item.lessonId, req.name.getD "", 1, req.total, req.date⟩) := by
  rw [postOrders_success st req items hn hp hi hne]
  exact ⟨rfl, rfl, rfl⟩

/-- Witness for `c3_amended`: the two-line request against the catalog in
which lesson 2 has no free slot still returns 201, stores two order
documents and leaves the catalog as it was. -/
theorem c3_amended_witness :
    (postOrders
        ⟨[(1, ⟨some "Math", some "Room 1", some 20, some 2, some 2⟩),
          (2, ⟨some "Sci", some "Room 2", some 30, some 2, some 0⟩)], []⟩
        ⟨some "Ann", some "123", some [⟨some 1, some 1⟩, ⟨some 2, some 1⟩],
          some 50, some "2024-01-01"⟩).2.lessons =
      [(1, ⟨some "Math", some "Room 1", some 20, some 2, some 2⟩),
       (2, ⟨some "Sci", some "Room 2", some 30, some 2, some 0⟩)] ∧
    (postOrders
        ⟨[(1, ⟨some "Math", some "Room 1", some 20, some 2, some 2⟩),
          (2, ⟨some "Sci", some "Room 2", some 30, some 2, some 0⟩)], []⟩
        ⟨some "Ann", some "123", some [⟨some 1, some 1⟩, ⟨some 2, some 1⟩],
          some 50, some "2024-01-01"⟩).1 = 201 ∧
    (postOrders
        ⟨[(1, ⟨some "Math", some "Room 1", some 20, some 2, some 2⟩),
          (2, ⟨some "Sci", some "Room 2", some 30, some 2, some 0⟩)], []⟩
        ⟨some "Ann", some "123", some [⟨some 1, some 1⟩, ⟨some 2, some 1⟩],
          some 50, some "2024-01-01"⟩).2.orders =
      [] ++ ([⟨some 1, some 1⟩, ⟨some 2, some 1⟩] : List OrderItem).map (fun item =>
        (⟨item.lessonId, (some "Ann").getD "", 1, some 50, some "2024-01-01"⟩ : OrderDoc)) :=
  c3_amended
    ⟨[(1, ⟨some "Math", some "Room 1", some 20, some 2, some 2⟩),
      (2, ⟨some "Sci", some "Room 2", some 30, some 2, some 0⟩)], []⟩
    ⟨some "Ann", some "123", some [⟨some 1, some 1⟩, ⟨some 2, some 1⟩],
      some 50, some "2024-01-01"⟩
    [⟨some 1, some 1⟩, ⟨some 2, some 1⟩]
    (by decide) (by decide) rfl (by decide)

/-- C4: the claim states that a checkout referencing an unknown `lessonId`
fails with `NotFound`, creates no Order and mutates no lesson.
Counterexample: with an empty catalog, a checkout whose single item
references id 99 answers 201 and persists an order document. -/
theorem c4_counterexample :
    findLesson ([] : List (Nat × LessonDoc)) 99 = none ∧
    (postOrders ⟨[], []⟩
        ⟨some "Ann", some "123", some [⟨some 99, some 1⟩], some 20, some "d"⟩).1 = 201 ∧
    (postOrders ⟨[], []⟩
        ⟨some "Ann", some "123", some [⟨some 99, some 1⟩], some 20, some "d"⟩).2.orders ≠ [] := by
  decide

/-- C4 (amended): the checkout endpoint never consults the catalog — for
every well-formed request containing an item whose `lessonId` matches no
stored lesson, it answers 201 and persists the order documents (strictly
growing the Orders collection); the catalog is left unchanged (only that
last part of the claim holds). -/
theorem c4_amended (st : ServerState) (req : OrderRequest) (items : List OrderItem)
    (item : OrderItem) (i : Nat)
    (hn : truthyStr req.name = true) (hp : truthyStr req.phone = true)
    (hi : req.items = some items) (hne : items ≠ [])
    (_hmem : item ∈ items) (_hid : item.lessonId = some i)
    (_habsent : findLesson st.lessons i = none) :
    (postOrders st req).1 = 201 ∧
    (postOrders st req).2.lessons = st.lessons ∧
    st.orders.length < (postOrders st req).2.orders.length := by
  rw [postOrders_success st req items hn hp hi hne]
  refine ⟨rfl, rfl, ?_⟩
  show st.orders.length < (st.orders ++ items.map _).length
  rw [List.length_append, List.length_map]
  have hpos : 0 < items.length := List.length_pos.mpr hne
  omega

/-- Witness for `c4_amended`: empty catalog, one item referencing the
absent id 99 — the checkout answers 201, the catalog stays empty and the
Orders collection grows. -/
theorem c4_amended_witness :
    (postOrders ⟨[], []⟩
        ⟨some "Ann", some "123", some [⟨some 99, some 1⟩], some 20, some "d"⟩).1 = 201 ∧
    (postOrders ⟨[], []⟩
        ⟨some "Ann", some "123", some [⟨some 99, some 1⟩], some 20, some "d"⟩).2.lessons =
      ([] : List (Nat × LessonDoc)) ∧
    List.length ([] : List OrderDoc) <
      (postOrders ⟨[], []⟩
        ⟨some "Ann", some "123", some [⟨some 99, some 1⟩], some 20, some "d"⟩).2.orders.length :=
  c4_amended ⟨[], []⟩
    ⟨some "Ann", some "123", some [⟨some 99, some 1⟩], some 20, some "d"⟩
    [⟨some 99, some 1⟩] ⟨some 99, some 1⟩ 99
    (by decide) (by decide) rfl (by decide) (by decide) rfl rfl

/-- C5: the claim states that a successful checkout persists an Order
whose `total` equals Σ(line quantity × lesson price), a non-negative
number.  Counterexample: lesson 1 costs 20 and the single line has
quantity 1, so the spec total is 20 — but the client sends `total = -5`
and the persisted document carries -5, which is negative and differs from
1 × 20. -/
theorem c5_counterexample :
    (postOrders ⟨[(1, ⟨some "Math", some "Room 1", some 20, some 2, some 2⟩)], []⟩
        ⟨some "Ann", some "123", some [⟨some 1, some 1⟩], some (-5), some "d"⟩).1 = 201 ∧
    (postOrders ⟨[(1, ⟨some "Math", some "Room 1", some 20, some 2, some 2⟩)], []⟩
        ⟨some "Ann", some "123", some [⟨some 1, some 1⟩], some (-5), some "d"⟩).2.orders.map
      OrderDoc.total = [some (-5)] ∧
    ((-5 : Int) < 0 ∧ (some (-5) : Option Int) ≠ some ((1 : Int) * 20)) := by
  decide

/-- C5 (amended): the persisted total is not computed by the server —
every order document written by a checkout carries, verbatim, the `total`
field the client supplied in the request body (duplicated onto each
item's document); nothing relates it to lesson prices or quantities, and
nothing forces it to be non-negative. -/
theorem c5_amended (st : ServerState) (req : OrderRequest) (items : List OrderItem)
    (hn : truthyStr req.name = true) (hp : truthyStr req.phone = true)
    (hi : req.items = some items) (hne : items ≠ [])
    (o : OrderDoc) (ho : o ∈ (postOrders st req).2.orders) :
    o ∈ st.orders ∨ o.total = req.total := by
  rw [postOrders_success st req items hn hp hi hne] at ho
  rcases List.mem_append.mp ho with h1 | h2
  · exact Or.inl h1
  · right
    obtain ⟨item, _, rfl⟩ := List.mem_map.mp h2
    rfl

/-- Witness for `c5_amended`: the single persisted document of the
counterexample request carries the client-chosen total -5. -/
theorem c5_amended_witness :
    (⟨some 1, "Ann", 1, some (-5), some "d"⟩ : OrderDoc) ∈ ([] : List OrderDoc) ∨
    (⟨some 1, "Ann", 1, some (-5), some "d"⟩ : OrderDoc).total = some (-5) :=
  c5_amended ⟨[(1, ⟨some "Math", some "Room 1", some 20, some 2, some 2⟩)], []⟩
    ⟨some "Ann", some "123", some [⟨some 1, some 1⟩], some (-5), some "d"⟩
    [⟨some 1, some 1⟩]
    (by decide) (by decide) rfl (by decide)
    ⟨some 1, "Ann", 1, some (-5), some "d"⟩ (by decide)

theorem findLesson_setLesson (l : List (Nat × LessonDoc)) (i : Nat) (body : LessonDoc) :
    findLesson (setLesson l i body) i =
      (findLesson l i).map (fun d => setFields d body) := by
  induction l with
  | nil => rfl
  | cons p rest ih =>
    by_cases hp : p.1 = i
    · simp [setLesson, findLesson, hp]
    · simp [setLesson, findLesson, hp, ih]

/-- C6: the claim states that creation returns a Lesson with
`availableSlots = capacity` and rejects empty subject/location, negative
price and negative capacity.  Counterexample: a body with price -5 and
capacity -1 passes `validateLesson` (it only checks that price is a
number), is answered 201, and is stored verbatim — with no
`availableSlots` field at all, so `availableSlots ≠ capacity`. -/
theorem c6_counterexample :
    (postLessons ⟨[], []⟩ 1 ⟨some "Math", some "Room 1", some (-5), some (-1), none⟩).1 = 201 ∧
    findLesson (postLessons ⟨[], []⟩ 1
        ⟨some "Math", some "Room 1", some (-5), some (-1), none⟩).2.lessons 1 =
      some ⟨some "Math", some "Room 1", some (-5), some (-1), none⟩ ∧
    (⟨some "Math", some "Room 1", some (-5), some (-1), none⟩ : LessonDoc).availableSlots ≠
      (⟨some "Math", some "Room 1", some (-5), some (-1), none⟩ : LessonDoc).capacity := by
  decide

/-- C6 (amended): creation rejects (400) exactly the bodies whose subject
or location is falsy or whose price is not a number; negative price and
negative capacity are accepted, and an accepted body is inserted verbatim
— `availableSlots` is not initialised to `capacity` (it is whatever the
body carried, possibly absent). -/
theorem c6_amended (st : ServerState) (newId : Nat) (body : LessonDoc) :
    ((postLessons st newId body).1 = 400 ↔
      (truthyStr body.subject = false ∨ truthyStr body.location = false ∨ body.price = none)) ∧
    ((postLessons st newId body).1 = 201 →
      (postLessons st newId body).2.lessons = st.lessons ++ [(newId, body)]) := by
  unfold postLessons validateLesson
  cases hs : truthyStr body.subject <;> cases hl : truthyStr body.location <;>
    cases hp : body.price <;> simp [hs, hl, hp]

/-- Witness for `c6_amended` at the counterexample body: price -5 and
capacity -1 are not rejected and the body is stored as sent. -/
theorem c6_amended_witness :
    ((postLessons ⟨[], []⟩ 1 ⟨some "Math", some "Room 1", some (-5), some (-1), none⟩).1 = 400 ↔
      (truthyStr (some "Math") = false ∨ truthyStr (some "Room 1") = false ∨
        (some (-5) : Option Int) = none)) ∧
    ((postLessons ⟨[], []⟩ 1 ⟨some "Math", some "Room 1", some (-5), some (-1), none⟩).1 = 201 →
      (postLessons ⟨[], []⟩ 1
          ⟨some "Math", some "Room 1", some (-5), some (-1), none⟩).2.lessons =
        [] ++ [(1, ⟨some "Math", some "Room 1", some (-5), some (-1), none⟩)]) :=
  c6_amended ⟨[], []⟩ 1 ⟨some "Math", some "Room 1", some (-5), some (-1), none⟩

/-- C7: the claim states that the per-lesson update never changes
`availableSlots`.  Counterexample: lesson 1 has 5 slots; an update whose
body carries `availableSlots: 999` (and valid metadata) is `$set`
verbatim, so the stored slots become 999 ≠ 5. -/
theorem c7_counterexample :
    (putLessonById ⟨[(1, ⟨some "A", some "B", some 10, some 5, some 5⟩)], []⟩ 1
        ⟨some "A", some "B", some 10, none, some 999⟩).1 = 200 ∧
    (findLesson (putLessonById ⟨[(1, ⟨some "A", some "B", some 10, some 5, some 5⟩)], []⟩ 1
        ⟨some "A", some "B", some 10, none, some 999⟩).2.lessons 1).map LessonDoc.availableSlots
      = some (some 999) ∧
    (some (999 : Int) ≠ some (5 : Int)) := by
  decide

/-- C7 (amended): for a body passing `validateLesson`, the update answers
404 and changes nothing when the id is absent (that part of the claim
holds); when the id is present it `$set`s every supplied field, so the
stored `availableSlots` becomes the body's value whenever the body
carries one, and only stays unchanged when the body omits it. -/
theorem c7_amended (st : ServerState) (i : Nat) (body : LessonDoc)
    (hv : validateLesson body = none) :
    (findLesson st.lessons i = none →
      (putLessonById st i body).1 = 404 ∧ (putLessonById st i body).2 = st) ∧
    (∀ doc : LessonDoc, findLesson st.lessons i = some doc →
      (putLessonById st i body).1 = 200 ∧
      (findLesson (putLessonById st i body).2.lessons i).map LessonDoc.availableSlots =
        some (body.availableSlots.orElse fun _ => doc.availableSlots)) := by
  constructor
  · intro habs
    unfold putLessonById
    rw [hv, habs]
    exact ⟨rfl, rfl⟩
  · intro doc hdoc
    unfold putLessonById
    rw [hv, hdoc]
    refine ⟨rfl, ?_⟩
    show (findLesson (setLesson st.lessons i body) i).map LessonDoc.availableSlots = _
    rw [findLesson_setLesson, hdoc]
    rfl

/-- Witness for `c7_amended`: the update on lesson 1 (5 slots) with a body
carrying `availableSlots: 999` answers 200 and stores 999. -/
theorem c7_amended_witness :
    (putLessonById ⟨[(1, ⟨some "A", some "B", some 10, some 5, some 5⟩)], []⟩ 1
        ⟨some "A", some "B", some 10, none, some 999⟩).1 = 200 ∧
    (findLesson (putLessonById ⟨[(1, ⟨some "A", some "B", some 10, some 5, some 5⟩)], []⟩ 1
        ⟨some "A", some "B", some 10, none, some 999⟩).2.lessons 1).map LessonDoc.availableSlots =
      some ((some 999 : Option Int).orElse fun _ => some 5) :=
  (c7_amended ⟨[(1, ⟨some "A", some "B", some 10, some 5, some 5⟩)], []⟩ 1
      ⟨some "A", some "B", some 10, none, some 999⟩ rfl).2
    ⟨some "A", some "B", some 10, some 5, some 5⟩ rfl

/-- C8: the claim states that N checkouts of one seat against a lesson
with k < N free slots yield exactly k confirmations, N - k
`InsufficientCapacity` rejections, and final `availableSlots = 0`.
Counterexample (N = 2, k = 1, run in one legal schedule): both checkouts
answer 201 and the lesson still has 1 slot — the order endpoint never
inspects or decrements availability. -/
theorem c8_counterexample :
    (runCheckouts ⟨[(1, ⟨some "Math", some "Room 1", some 20, some 2, some 1⟩)], []⟩
        [⟨some "Ann", some "1", some [⟨some 1, some 1⟩], some 20, some "d"⟩,
         ⟨some "Bob", some "2", some [⟨some 1, some 1⟩], some 20, some "d"⟩]).1 = [201, 201] ∧
    (findLesson (runCheckouts ⟨[(1, ⟨some "Math", some "Room 1", some 20, some 2, some 1⟩)], []⟩
        [⟨some "Ann", some "1", some [⟨some 1, some 1⟩], some 20, some "d"⟩,
         ⟨some "Bob", some "2", some [⟨some 1, some 1⟩], some 20, some "d"⟩]).2.lessons 1).map
      LessonDoc.availableSlots = some (some 1) := by
  decide

/-- C8 (amended): checkouts never contend for seats — any sequence of
well-formed checkout requests (truthy name and phone, non-empty items)
all answer 201, however few slots the referenced lessons have, and the
Lessons collection afterwards is exactly what it was before.  Since even
this sequential schedule violates the claimed k/N - k split, no
interleaving can realise it. -/
theorem c8_amended (st : ServerState) (reqs : List OrderRequest)
    (hvalid : ∀ r ∈ reqs, truthyStr r.name = true ∧ truthyStr r.phone = true ∧
      r.items.isSome = true ∧ r.items.getD [] ≠ []) :
    (runCheckouts st reqs).1 = reqs.map (fun _ => 201) ∧
    (runCheckouts st reqs).2.lessons = st.lessons := by
  induction reqs generalizing st with
  | nil => exact ⟨rfl, rfl⟩
  | cons r rest ih =>
    obtain ⟨hn, hp, his, hgd⟩ := hvalid r (List.mem_cons_self r rest)
    obtain ⟨itms, hi⟩ := Option.isSome_iff_exists.mp his
    have hne : itms ≠ [] := by
      rw [hi] at hgd
      exact hgd
    have hrest : ∀ x ∈ rest, truthyStr x.name = true ∧ truthyStr x.phone = true ∧
        x.items.isSome = true ∧ x.items.getD [] ≠ [] :=
      fun x hx => hvalid x (List.mem_cons_of_mem r hx)
    have hst : (postOrders st r).1 = 201 := by
      rw [postOrders_success st r itms hn hp hi hne]
    have ih2 := ih (postOrders st r).2 hrest
    refine ⟨?_, ?_⟩
    · show (postOrders st r).1 :: (runCheckouts (postOrders st r).2 rest).1 =
        201 :: rest.map (fun _ => 201)
      rw [hst, ih2.1]
    · show (runCheckouts (postOrders st r).2 rest).2.lessons = st.lessons
      rw [ih2.2, postOrders_lessons]

/-- Witness for `c8_amended`: the two checkouts of the counterexample both
answer 201 and the one-lesson catalog (1 free slot) is unchanged. -/
theorem c8_amended_witness :
    (runCheckouts ⟨[(1, ⟨some "Math", some "Room 1", some 20, some 2, some 1⟩)], []⟩
        [⟨some "Ann", some "1", some [⟨some 1, some 1⟩], some 20, some "d"⟩,
         ⟨some "Bob", some "2", some [⟨some 1, some 1⟩], some 20, some "d"⟩]).1 =
      ([⟨some "Ann", some "1", some [⟨some 1, some 1⟩], some 20, some "d"⟩,
        ⟨some "Bob", some "2", some [⟨some 1, some 1⟩], some 20, some "d"⟩] :
          List OrderRequest).map (fun _ => 201) ∧
    (runCheckouts ⟨[(1, ⟨some "Math", some "Room 1", some 20, some 2, some 1⟩)], []⟩
        [⟨some "Ann", some "1", some [⟨some 1, some 1⟩], some 20, some "d"⟩,
         ⟨some "Bob", some "2", some [⟨some 1, some 1⟩], some 20, some "d"⟩]).2.lessons =
      [(1, ⟨some "Math", some "Room 1", some 20, some 2, some 1⟩)] :=
  c8_amended ⟨[(1, ⟨some "Math", some "Room 1", some 20, some 2, some 1⟩)], []⟩
    [⟨some "Ann", some "1", some [⟨some 1, some 1⟩], some 20, some "d"⟩,
     ⟨some "Bob", some "2", some [⟨some 1, some 1⟩], some 20, some "d"⟩]
    (by decide)

/-- C9: every order document persisted by the order-creation endpoint has
`quantity = 1` — the handler hard-codes `quantity: 1` and ignores any
quantity carried by the request's items. -/
theorem c9_quantity_one (st : ServerState) (req : OrderRequest) (o : OrderDoc)
    (ho : o ∈ (postOrders st req).2.orders) :
    o ∈ st.orders ∨ o.quantity = 1 := by
  unfold postOrders at ho
  split at ho
  · exact Or.inl ho
  · rcases List.mem_append.mp ho with h1 | h2
    · exact Or.inl h1
    · right
      obtain ⟨item, _, rfl⟩ := List.mem_map.mp h2
      rfl

/-- Witness for `c9_quantity_one`: the request item asks for quantity 7,
yet the persisted document has quantity 1. -/
theorem c9_quantity_one_witness :
    (⟨some 1, "Ann", 1, some 20, some "d"⟩ : OrderDoc) ∈ ([] : List OrderDoc) ∨
    (⟨some 1, "Ann", 1, some 20, some "d"⟩ : OrderDoc).quantity = 1 :=
  c9_quantity_one ⟨[], []⟩
    ⟨some "Ann", some "123", some [⟨some 1, some 7⟩], some 20, some "d"⟩
    ⟨some 1, "Ann", 1, some 20, some "d"⟩ (by decide)

theorem updateAvailabilityLoop_status (lessons : List (Nat × LessonDoc))
    (entries : List BulkEntry)
    (h : ∀ e ∈ entries, e.id.isSome = true ∧ truthyNum e.quantity = true) :
    (updateAvailabilityLoop lessons entries).1 = 200 := by
  induction entries generalizing lessons with
  | nil => rfl
  | cons e rest ih =>
    obtain ⟨hid, hq⟩ := h e (List.mem_cons_self e rest)
    have hrest : ∀ x ∈ rest, x.id.isSome = true ∧ truthyNum x.quantity = true :=
      fun x hx => h x (List.mem_cons_of_mem e hx)
    unfold updateAvailabilityLoop
    simp only [hid, hq, Bool.not_true, Bool.or_self, Bool.false_eq_true, if_false]
    exact ih _ hrest

/-- C10: for every bulk availability request whose entries all carry a
truthy id and quantity, the endpoint answers 200 ("updated successfully")
even when some ids match no stored lesson — a missing id is only logged
(`console.warn`), never surfaced to the caller. -/
theorem c10_bulk_update_200 (st : ServerState) (entries : List BulkEntry)
    (h : ∀ e ∈ entries, e.id.isSome = true ∧ truthyNum e.quantity = true) :
    (putLessonsBulk st (some entries)).1 = 200 := by
  unfold putLessonsBulk
  exact updateAvailabilityLoop_status st.lessons entries h

/-- Witness for `c10_bulk_update_200`: against an empty catalog — so the
entry's id 7 matches nothing — the endpoint still answers 200. -/
theorem c10_bulk_update_200_witness :
    (putLessonsBulk ⟨[], []⟩ (some [⟨some 7, some 3⟩])).1 = 200 :=
  c10_bulk_update_200 ⟨[], []⟩ [⟨some 7, some 3⟩] (by decide)

end CW1
